import Mathlib

/-!
Shallow embedding of the adaptive collection engine of the Quode repository:
`rate_limiter.py` (RateLimiter / RequestSession) and `twitter_scraper.py`
(the TwitterScraper collection loops).  Wall-clock times, delays and
multipliers are modelled as rationals; random draws (jitter, pacing) are
explicit parameters; Python exceptions become `Except` values.
-/

/-- `RequestInfo` (rate_limiter.py lines 19-25): one recorded outcome. -/
structure RequestInfo where
  timestamp : ℚ
  user_agent : String
  success : Bool
  response_time : ℚ
  deriving DecidableEq, Repr

/-- The rate-limiting configuration read by the embedded `RateLimiter`
methods (the fields of `get_config().rate_limiting` they consume). -/
structure RateLimitingConfig where
  delay_between_requests : ℚ
  max_delay : ℚ
  exponential_backoff : Bool
  requests_per_minute : ℕ
  deriving DecidableEq, Repr

/-- Mutable state of `RateLimiter` (rate_limiter.py lines 31-41).  The
user-agent pool and its cursor are omitted: none of the embedded methods
read them. -/
structure RateLimiter where
  config : RateLimitingConfig
  request_history : List RequestInfo
  last_request_time : Option ℚ
  consecutive_failures : ℕ
  backoff_multiplier : ℚ
  deriving DecidableEq, Repr

/-- `RateLimiter.__init__` (lines 31-41): empty history, no prior request,
zero consecutive failures, multiplier 1.0. -/
def RateLimiter.init (c : RateLimitingConfig) : RateLimiter :=
  { config := c, request_history := [], last_request_time := none,
    consecutive_failures := 0, backoff_multiplier := 1 }

/-- `RateLimiter.reset` (lines 167-173). -/
def RateLimiter.reset (rl : RateLimiter) : RateLimiter :=
  { rl with
    request_history := []
    last_request_time := none
    consecutive_failures := 0
    backoff_multiplier := 1 }

/-- Capacity of the rolling history: `deque(maxlen=1000)` (line 34). -/
def HISTORY_CAPACITY : ℕ := 1000

/-- Appending to a `deque(maxlen=1000)`: oldest entries are evicted from the
front once the capacity is exceeded (FIFO). -/
def dequeAppend (q : List RequestInfo) (x : RequestInfo) : List RequestInfo :=
  let q' := q ++ [x]
  if HISTORY_CAPACITY < q'.length then q'.drop (q'.length - HISTORY_CAPACITY) else q'

/-- Modelled from the spec: `exponential_backoff_delay` is imported from
`utils/helpers`, a module absent from the sources; spec §9 reconstructs it
as `base * 2^consecutiveFailures` capped at `maxDelay`. -/
def exponential_backoff_delay (consecutive_failures : ℕ) (base_delay max_delay : ℚ) : ℚ :=
  min max_delay (base_delay * 2 ^ consecutive_failures)

/-- The local `delay` computed by `RateLimiter.calculate_delay`
(rate_limiter.py lines 70-83) before jitter is applied. -/
def calculate_delay_pre (rl : RateLimiter) : ℚ :=
  if rl.config.exponential_backoff ∧ 0 < rl.consecutive_failures then
    max rl.config.delay_between_requests
      (exponential_backoff_delay rl.consecutive_failures
        rl.config.delay_between_requests rl.config.max_delay)
  else
    rl.config.delay_between_requests

/-- `RateLimiter.calculate_delay` (lines 70-92); the jitter draw
`random.uniform(0.5, 1.5)` is passed in explicitly. -/
def calculate_delay (rl : RateLimiter) (jitter : ℚ) : ℚ :=
  min (calculate_delay_pre rl * jitter) rl.config.max_delay

/-- `RateLimiter.should_wait` (lines 94-102); `now` and the jitter consumed by
its internal `calculate_delay()` call are explicit. -/
def should_wait (rl : RateLimiter) (now jitter : ℚ) : Bool :=
  match rl.last_request_time with
  | none => false
  | some t => decide (now - t < calculate_delay rl jitter)

/-- `RateLimiter.wait_if_needed` (lines 104-109), returning the duration
slept (0 when no wait).  `j1` is the jitter drawn inside `should_wait`'s own
`calculate_delay()` call; `j2` is the fresh, independent draw made for the
sleep duration. -/
def wait_if_needed (rl : RateLimiter) (now j1 j2 : ℚ) : ℚ :=
  if should_wait rl now j1 then calculate_delay rl j2 else 0

/-- `RateLimiter.record_request` (lines 111-128). -/
def record_request (rl : RateLimiter) (success : Bool) (response_time : ℚ)
    (user_agent : String) (now : ℚ) : RateLimiter :=
  let info : RequestInfo := ⟨now, user_agent, success, response_time⟩
  let hist := dequeAppend rl.request_history info
  if success then
    { rl with
      request_history := hist
      last_request_time := some now
      consecutive_failures := 0
      backoff_multiplier := max 1 (rl.backoff_multiplier * (9 / 10)) }
  else
    { rl with
      request_history := hist
      last_request_time := some now
      consecutive_failures := rl.consecutive_failures + 1
      backoff_multiplier := min 10 (rl.backoff_multiplier * (3 / 2)) }

/-- `RateLimiter.get_request_stats` (lines 130-160), as the association list
of dictionary keys and numeric values it returns.  It is a pure function of
the limiter state and the clock: it mutates nothing. -/
def get_request_stats (rl : RateLimiter) (now : ℚ) : List (String × ℚ) :=
  if rl.request_history.isEmpty then
    [("total_requests", 0), ("success_rate", 0),
     ("avg_response_time", 0), ("requests_per_minute", 0)]
  else
    let recent := rl.request_history.filter (fun r => decide (now - r.timestamp ≤ 60))
    let total_requests := rl.request_history.length
    let successful := (rl.request_history.filter (fun r => r.success)).length
    let success_rate : ℚ :=
      if 0 < total_requests then (successful : ℚ) / (total_requests : ℚ) else 0
    let avg : ℚ :=
      if 0 < total_requests then
        (rl.request_history.map (fun r => r.response_time)).sum / (total_requests : ℚ)
      else 0
    [("total_requests", (total_requests : ℚ)), ("success_rate", success_rate),
     ("avg_response_time", avg), ("requests_per_minute", (recent.length : ℚ)),
     ("consecutive_failures", (rl.consecutive_failures : ℚ)),
     ("backoff_multiplier", rl.backoff_multiplier)]

/-- `n` consecutive failing outcomes fed through `record_request` (latency,
identity and timestamp do not affect the backoff state). -/
def failN (rl : RateLimiter) : ℕ → RateLimiter
  | 0 => rl
  | n + 1 => record_request (failN rl n) false 0 "ua" 0

/-- A whole sequence of outcomes recorded through `record_request`, starting
from a freshly initialized limiter. -/
def histFold (c : RateLimitingConfig) (l : List RequestInfo) : RateLimiter :=
  l.foldl (fun rl i => record_request rl i.success i.response_time i.user_agent i.timestamp)
    (RateLimiter.init c)

/-- The rolling-history component of a sequence of `record_request` calls. -/
def hFold (q : List RequestInfo) (l : List RequestInfo) : List RequestInfo :=
  l.foldl dequeAppend q

/-- `TweetData` (twitter_scraper.py lines 33-50).  Of its fields only
`content_hash` is ever inspected by the collection loops; the remaining
payload rides along opaquely and is compressed into `tweet_id`. -/
structure TweetData where
  tweet_id : String
  content_hash : String
  deriving DecidableEq, Repr

/-- The hard-coded scroll ceiling of `_collect_tweets_for_hashtag`
(twitter_scraper.py line 383): a local constant, not a configuration
value. -/
def max_scrolls : ℕ := 10

/-- The inner `for element in tweet_elements` loop of
`_collect_tweets_for_hashtag` (lines 393-400).  Each list entry is the
result of `_extract_tweet_data` on one element: `none` models an extraction
that returned `None` (malformed or window-rejected) and is skipped.  The
`break` on reaching `max_tweets` stops the traversal. -/
def processElements (max_tweets : ℕ) :
    List (Option TweetData) → List TweetData × Finset String → List TweetData × Finset String
  | [], st => st
  | e :: rest, (tweets, seen) =>
    if max_tweets ≤ tweets.length then (tweets, seen)
    else
      match e with
      | some td =>
        if td.content_hash ∈ seen then processElements max_tweets rest (tweets, seen)
        else processElements max_tweets rest (tweets ++ [td], insert td.content_hash seen)
      | none => processElements max_tweets rest (tweets, seen)

/-- The `while` loop of `_collect_tweets_for_hashtag` (lines 389-408)
together with the enclosing `try`/`except` of lines 385-411, recursing
structurally on the explicit termination measure
`fuel = max_scrolls - scroll_count` (the loop body increments `sc` whenever
it continues, so the measure is faithful: `fuel = 0` exactly when the
`scroll_count < max_scrolls` conjunct of the `while` condition is false).
`pages sc` is the combined outcome of `driver.find_elements` plus
per-element extraction at scroll count `sc`; `Except.error` models a
WebDriver exception there, which the enclosing handler catches so that the
items collected so far are returned.  The last component counts page-fetch
iterations (calls to `find_elements`, a failed one included). -/
def collectLoopF (pages : ℕ → Except Unit (List (Option TweetData))) (max_tweets : ℕ) :
    ℕ → List TweetData → Finset String → ℕ → ℕ → List TweetData × Finset String × ℕ
  | 0, tweets, seen, _, iters => (tweets, seen, iters)
  | fuel + 1, tweets, seen, sc, iters =>
    if tweets.length < max_tweets ∧ sc < max_scrolls then
      match pages sc with
      | Except.error _ => (tweets, seen, iters + 1)
      | Except.ok elems =>
        let st := processElements max_tweets elems (tweets, seen)
        if st.1.length < max_tweets then
          collectLoopF pages max_tweets fuel st.1 st.2 (sc + 1) (iters + 1)
        else (st.1, st.2, iters + 1)
    else (tweets, seen, iters)

/-- The `while` loop of `_collect_tweets_for_hashtag`, entered at scroll
count `sc`: the fuel `max_scrolls - sc` never runs out before the `while`
condition turns false. -/
def collectLoop (pages : ℕ → Except Unit (List (Option TweetData))) (max_tweets : ℕ)
    (tweets : List TweetData) (seen : Finset String) (sc : ℕ) (iters : ℕ) :
    List TweetData × Finset String × ℕ :=
  collectLoopF pages max_tweets (max_scrolls - sc) tweets seen sc iters

/-- `TwitterScraper._collect_tweets_for_hashtag` (lines 369-413).  `nav` is
the outcome of the `_search_twitter` call: when it raises, the handler at the
function boundary catches the exception and `[]` is returned, the caller's
dedup set unchanged.  Returns the collected tweets, the updated (shared,
mutated-in-place) `seen_hashes` set, and the page-fetch iteration count. -/
def collect_tweets_for_hashtag (nav : Except Unit Unit)
    (pages : ℕ → Except Unit (List (Option TweetData)))
    (max_tweets : ℕ) (seen_hashes : Finset String) :
    List TweetData × Finset String × ℕ :=
  match nav with
  | Except.error _ => ([], seen_hashes, 0)
  | Except.ok _ => collectLoop pages max_tweets [] seen_hashes 0 0

/-- Environment for one query: the navigation outcome and the page contents
observed at each scroll count (the external Page Fetcher / Item Extractor
collaborators). -/
structure QueryEnv where
  nav : Except Unit Unit
  pages : ℕ → Except Unit (List (Option TweetData))

/-- The per-hashtag loop of `TwitterScraper.collect_tweets` (lines 339-357):
`all_tweets` accumulated across hashtags, together with the single
`seen_hashes` set shared with (and mutated by) every per-hashtag call.  The
`except ... continue` guard of lines 355-357 never fires because the callee
handles its own failures and returns normally. -/
def collectAll (env : String → QueryEnv) (hashtags : List String)
    (max_tweets_per_hashtag : ℕ) : List TweetData × Finset String :=
  hashtags.foldl
    (fun acc h =>
      let r := collect_tweets_for_hashtag (env h).nav (env h).pages max_tweets_per_hashtag acc.2
      (acc.1 ++ r.1, r.2.1))
    ([], ∅)

/-- The final "Remove duplicates based on content hash" pass of
`collect_tweets` (lines 359-364): it filters `all_tweets` against the SAME
`seen_hashes` set that the per-hashtag loops already populated. -/
def dedupPass (all_tweets : List TweetData) (seen_hashes : Finset String) :
    List TweetData × Finset String :=
  all_tweets.foldl
    (fun st t =>
      if t.content_hash ∈ st.2 then st
      else (st.1 ++ [t], insert t.content_hash st.2))
    ([], seen_hashes)

/-- `TwitterScraper.collect_tweets` (lines 322-367): the `unique_tweets` list
it returns. -/
def collect_tweets (env : String → QueryEnv) (hashtags : List String)
    (max_tweets_per_hashtag : ℕ) : List TweetData :=
  let r := collectAll env hashtags max_tweets_per_hashtag
  (dedupPass r.1 r.2).1

/-- `_collect_tweets_for_hashtag` with the scraper's `self.rate_limiter`
state threaded explicitly.  The method body (twitter_scraper.py lines
369-413) drives the Selenium driver directly: it contains no call to
`RequestSession.make_request`, `wait_if_needed` or `record_request` (the
scraper touches `self.rate_limiter` only in `_setup_driver` and
`get_collection_stats`), so the limiter state passes through untouched. -/
def collect_tweets_for_hashtag_rl (nav : Except Unit Unit)
    (pages : ℕ → Except Unit (List (Option TweetData)))
    (max_tweets : ℕ) (seen_hashes : Finset String) (rl : RateLimiter) :
    (List TweetData × Finset String × ℕ) × RateLimiter :=
  (collect_tweets_for_hashtag nav pages max_tweets seen_hashes, rl)

/-- One `(cycle, query)` step of `collect_tweets_streaming`: whether the
step's body raised (the `except` arm of lines 447-449), the wall-clock time
consumed by the `_collect_tweets_for_hashtag` call plus the yields, and the
pacing draw `random.uniform(30, 60)` slept after a successful batch.  A
failing step sleeps the fixed 60-second cool-down instead. -/
structure QStep where
  fails : Bool
  dur : ℕ
  pace : ℕ

/-- The `for hashtag in hashtags` body of `collect_tweets_streaming`
(lines 436-449), over query indices: emits one
`(cycle, queryIndex, startTime)` event per batch started, and returns the
clock at the end of the cycle. -/
def streamCycle (env : ℕ → ℕ → QStep) (cyc : ℕ) :
    List ℕ → ℕ → List (ℕ × ℕ × ℕ) × ℕ
  | [], t => ([], t)
  | q :: rest, t =>
    let s := env cyc q
    let t' := if s.fails then t + s.dur + 60 else t + s.dur + s.pace
    let r := streamCycle env cyc rest t'
    ((cyc, q, t) :: r.1, r.2)

/-- `TwitterScraper.collect_tweets_streaming` (lines 415-453) as the sequence
of batch-start events, with the clock explicit and a fuel bound on the number
of cycles (the real loop is bounded by wall time; fuel only truncates a run,
it never adds events).  The `while` condition re-checks
`datetime.now() < end_time` before every cycle; the trailing
`if datetime.now() >= end_time: break` of lines 452-453 is subsumed by that
same re-check, since no time passes between the two. -/
def collect_tweets_streaming (env : ℕ → ℕ → QStep) (numQ deadline : ℕ) :
    ℕ → ℕ → ℕ → List (ℕ × ℕ × ℕ)
  | 0, _, _ => []
  | fuel + 1, t, cyc =>
    if t < deadline then
      let r := streamCycle env cyc (List.range numQ) t
      r.1 ++ collect_tweets_streaming env numQ deadline fuel r.2 (cyc + 1)
    else []

/-- A configuration with base delay 2.0s, max delay 60s, exponential backoff
enabled, 30 requests per minute. -/
def cfgA : RateLimitingConfig := ⟨2, 60, true, 30⟩

/-- Scenario-A limiter state: 3 consecutive failures with backoff enabled
(the multiplier holds the value produced by three failing
`record_request` calls). -/
def scenarioA : RateLimiter :=
  { config := cfgA
    request_history := [⟨0, "ua", false, 1⟩, ⟨1, "ua", false, 1⟩, ⟨2, "ua", false, 1⟩]
    last_request_time := some 2
    consecutive_failures := 3
    backoff_multiplier := (27 : ℚ) / 8 }

/-- A configuration with exponential backoff disabled. -/
def cfgB : RateLimitingConfig := ⟨2, 60, false, 30⟩

/-- A limiter that served one request at time 0 and is otherwise fresh. -/
def rlB : RateLimiter :=
  { config := cfgB
    request_history := [⟨0, "ua", true, 1⟩]
    last_request_time := some 0
    consecutive_failures := 0
    backoff_multiplier := 1 }

/-- The single tweet used in the batch-collection run of claim C1. -/
def tdC1 : TweetData := ⟨"t1", "h1"⟩

/-- Batch environment for claim C1: navigation succeeds and the first page
shows exactly one extractable tweet, later pages show nothing. -/
def envC1 : String → QueryEnv :=
  fun _ => ⟨Except.ok (), fun sc => if sc = 0 then Except.ok [some tdC1] else Except.ok []⟩

/-- Page contents yielding one new unique item on each of the first five
iterations, then only an already-seen fingerprint. -/
def pagesRepeatAfter5 (sc : ℕ) : Except Unit (List (Option TweetData)) :=
  if sc < 5 then Except.ok [some ⟨"t", "h" ++ Nat.repr sc⟩]
  else Except.ok [some ⟨"t", "h0"⟩]

/-- Page contents yielding one new unique item on every iteration: a source
that always returns fresh content. -/
def pagesAlwaysNew (sc : ℕ) : Except Unit (List (Option TweetData)) :=
  Except.ok [some ⟨"t", "h" ++ Nat.repr sc⟩]

/-- Streaming environment for claim C3: every step succeeds instantly and is
paced by a 60-second draw (the upper end of `random.uniform(30, 60)`). -/
def envC3 : ℕ → ℕ → QStep := fun _ _ => ⟨false, 0, 60⟩

/-- Batch environment whose first query fails navigation and whose second
query succeeds with empty pages. -/
def envC7w : String → QueryEnv :=
  fun q =>
    if q = "a" then ⟨Except.error (), fun _ => Except.ok []⟩
    else ⟨Except.ok (), fun _ => Except.ok []⟩

/-- A limiter that has recorded exactly one (successful) outcome. -/
def rlOne : RateLimiter := record_request (RateLimiter.init cfgA) true 1 "ua" 0

/-- Session counters of `RequestSession` (rate_limiter.py lines 191-205),
around the limiter state. -/
structure RequestSession where
  rate_limiter : RateLimiter
  total_requests : ℕ
  successful_requests : ℕ
  failed_requests : ℕ

/-- `RequestSession.make_request` (rate_limiter.py lines 220-261), acting on
the session state: count the request, wait if rate limiting demands it
(`j1`, `j2` are the two jitter draws of `wait_if_needed`), run the supplied
request function (its outcome and measured latency are inputs), record
exactly one outcome, and return the result or re-raise the failure. -/
def make_request (s : RequestSession) (fetch : Except Unit Unit) (latency : ℚ)
    (user_agent : String) (now j1 j2 : ℚ) : RequestSession × Except Unit Unit :=
  let s1 : RequestSession := { s with total_requests := s.total_requests + 1 }
  let _slept := wait_if_needed s1.rate_limiter now j1 j2
  match fetch with
  | Except.ok r =>
    ({ s1 with
       rate_limiter := record_request s1.rate_limiter true latency user_agent now
       successful_requests := s1.successful_requests + 1 }, Except.ok r)
  | Except.error e =>
    ({ s1 with
       rate_limiter := record_request s1.rate_limiter false latency user_agent now
       failed_requests := s1.failed_requests + 1 }, Except.error e)

/-- A sample outcome. -/
def outcomeC9 : RequestInfo := ⟨0, "ua", true, 0⟩

/-- 1001 identical outcomes, one more than the rolling history holds. -/
def listC9 : List RequestInfo := List.replicate 1001 outcomeC9

/-- A deque append always drops exactly the prefix that exceeds capacity. -/
theorem dequeAppend_eq_drop (q : List RequestInfo) (x : RequestInfo) :
    dequeAppend q x = (q ++ [x]).drop (q.length + 1 - HISTORY_CAPACITY) := by
  unfold dequeAppend
  simp only [List.length_append, List.length_cons, List.length_nil]
  split
  · rfl
  · rename_i hle
    have h0 : q.length + 1 - HISTORY_CAPACITY = 0 := by omega
    simp [h0]

/-- Length of a deque append: grows by one until the capacity caps it. -/
theorem dequeAppend_length (q : List RequestInfo) (x : RequestInfo) :
    (dequeAppend q x).length = min (q.length + 1) HISTORY_CAPACITY := by
  rw [dequeAppend_eq_drop]
  simp only [List.length_drop, List.length_append, List.length_cons, List.length_nil]
  omega

/-- Both branches of `record_request` append the constructed outcome to the
rolling history. -/
theorem record_request_history (rl : RateLimiter) (s : Bool) (rt : ℚ) (ua : String) (now : ℚ) :
    (record_request rl s rt ua now).request_history =
      dequeAppend rl.request_history ⟨now, ua, s, rt⟩ := by
  cases s <;> rfl

/-- The rolling history of a recorded sequence is the fold of deque appends
over the outcomes themselves. -/
theorem foldl_record_history (l : List RequestInfo) :
    ∀ rl : RateLimiter,
      (l.foldl (fun rl i => record_request rl i.success i.response_time i.user_agent i.timestamp)
        rl).request_history = hFold rl.request_history l := by
  induction l with
  | nil => intro rl; rfl
  | cons x l ih =>
    intro rl
    rw [List.foldl_cons, ih, record_request_history]
    rfl

/-- Closed form of the history fold: only the most recent
`HISTORY_CAPACITY` outcomes survive, in insertion order. -/
theorem hFold_eq_drop (l : List RequestInfo) :
    ∀ q : List RequestInfo, q.length ≤ HISTORY_CAPACITY →
      hFold q l = (q ++ l).drop (q.length + l.length - HISTORY_CAPACITY) := by
  induction l with
  | nil =>
    intro q hq
    have h0 : q.length - HISTORY_CAPACITY = 0 := by omega
    simp [hFold, h0]
  | cons x l ih =>
    intro q hq
    have hlen : (dequeAppend q x).length = min (q.length + 1) HISTORY_CAPACITY :=
      dequeAppend_length q x
    have hle : (dequeAppend q x).length ≤ HISTORY_CAPACITY := by omega
    have hstep : hFold q (x :: l) = hFold (dequeAppend q x) l := rfl
    rw [hstep, ih _ hle, hlen, dequeAppend_eq_drop]
    have hd : q.length + 1 - HISTORY_CAPACITY ≤ (q ++ [x]).length := by
      simp only [List.length_append, List.length_cons, List.length_nil]; omega
    rw [← List.drop_append_of_le_length hd, List.drop_drop]
    have harr : (q ++ [x]) ++ l = q ++ (x :: l) := by simp
    have hidx : q.length + 1 - HISTORY_CAPACITY +
        (min (q.length + 1) HISTORY_CAPACITY + l.length - HISTORY_CAPACITY) =
        q.length + (x :: l).length - HISTORY_CAPACITY := by
      simp only [List.length_cons]; omega
    rw [harr, hidx]

/-- The full rolling history of a freshly started limiter after any
sequence of outcomes. -/
theorem histFold_history (c : RateLimitingConfig) (l : List RequestInfo) :
    (histFold c l).request_history = l.drop (l.length - HISTORY_CAPACITY) := by
  have h1 : (histFold c l).request_history = hFold [] l := foldl_record_history l _
  rw [h1, hFold_eq_drop l [] (by simp [HISTORY_CAPACITY])]
  simp

/-- One multiplicative backoff step on a clamped failure multiplier. -/
theorem bm_step (x : ℚ) (hx : 1 ≤ x) :
    min 10 (max 1 (min 10 x) * (3 / 2)) = max 1 (min 10 (x * (3 / 2))) := by
  have hmin1 : (1 : ℚ) ≤ min 10 x := le_min (by norm_num) hx
  have hmax : max 1 (min 10 x) = min 10 x := max_eq_right hmin1
  have hx32 : (1 : ℚ) ≤ x * (3 / 2) := by nlinarith
  have hmin2 : (1 : ℚ) ≤ min 10 (x * (3 / 2)) := le_min (by norm_num) hx32
  rw [hmax, max_eq_right hmin2]
  rcases le_total x 10 with h | h
  · rw [min_eq_right h]
  · rw [min_eq_left h]
    have h1 : min (10 : ℚ) (10 * (3 / 2)) = 10 := by norm_num
    have h2 : min (10 : ℚ) (x * (3 / 2)) = 10 := min_eq_left (by nlinarith)
    rw [h1, h2]

/-- Powers of 3/2 never drop below 1. -/
theorem one_le_pow_three_halves (n : ℕ) : (1 : ℚ) ≤ (3 / 2) ^ n :=
  one_le_pow₀ (by norm_num)

/-- Failure chain: starting from multiplier 1 and zero consecutive failures,
`n` failing outcomes drive the state to the clamped exponential. -/
theorem failN_spec (rl : RateLimiter) (hbm : rl.backoff_multiplier = 1)
    (hcf : rl.consecutive_failures = 0) (n : ℕ) :
    (failN rl n).backoff_multiplier = max 1 (min 10 ((3 / 2 : ℚ) ^ n)) ∧
      (failN rl n).consecutive_failures = n := by
  induction n with
  | zero =>
    constructor
    · simp [failN, hbm]
    · simp [failN, hcf]
  | succ n ih =>
    have hf : failN rl (n + 1) = record_request (failN rl n) false 0 "ua" 0 := rfl
    constructor
    · rw [hf]
      show min 10 ((failN rl n).backoff_multiplier * (3 / 2)) = _
      rw [ih.1, bm_step _ (one_le_pow_three_halves n), pow_succ]
    · rw [hf]
      show (failN rl n).consecutive_failures + 1 = n + 1
      rw [ih.2]

/-- Each pass of the pagination loop consumes one unit of fuel, so the
number of page-fetch iterations is bounded by the fuel supplied. -/
theorem collectLoopF_iters (pages : ℕ → Except Unit (List (Option TweetData)))
    (max_tweets : ℕ) :
    ∀ (fuel : ℕ) (tweets : List TweetData) (seen : Finset String) (sc iters : ℕ),
      (collectLoopF pages max_tweets fuel tweets seen sc iters).2.2 ≤ iters + fuel := by
  intro fuel
  induction fuel with
  | zero => intro tweets seen sc iters; simp [collectLoopF]
  | succ fuel ih =>
    intro tweets seen sc iters
    show (collectLoopF pages max_tweets (fuel + 1) tweets seen sc iters).2.2 ≤ iters + (fuel + 1)
    rw [collectLoopF]
    by_cases hc : tweets.length < max_tweets ∧ sc < max_scrolls
    · rw [if_pos hc]
      cases hp : pages sc with
      | error e => exact (show iters + 1 ≤ iters + (fuel + 1) by omega)
      | ok elems =>
        dsimp only
        by_cases hlen : (processElements max_tweets elems (tweets, seen)).1.length < max_tweets
        · rw [if_pos hlen]
          exact le_trans (ih _ _ _ _) (by omega)
        · rw [if_neg hlen]
          exact (show iters + 1 ≤ iters + (fuel + 1) by omega)
    · rw [if_neg hc]
      exact (show iters ≤ iters + (fuel + 1) by omega)

/-- Every batch-start event of one cycle carries that cycle's index, a query
index drawn from the traversed list, and a start time no earlier than the
cycle's start. -/
theorem streamCycle_mem (env : ℕ → ℕ → QStep) (cyc : ℕ) :
    ∀ (qs : List ℕ) (t : ℕ) (e : ℕ × ℕ × ℕ),
      e ∈ (streamCycle env cyc qs t).1 → e.1 = cyc ∧ e.2.1 ∈ qs ∧ t ≤ e.2.2 := by
  intro qs
  induction qs with
  | nil => intro t e he; simp [streamCycle] at he
  | cons q rest ih =>
    intro t e he
    rw [streamCycle] at he
    simp only [List.mem_cons] at he
    rcases he with he | he
    · subst he; exact ⟨rfl, by simp, le_refl t⟩
    · rcases ih _ e he with ⟨h1, h2, h3⟩
      refine ⟨h1, by simp [h2], le_trans ?_ h3⟩
      split <;> omega

/-- Within one cycle over `List.range numQ`, the only batch-start event
whose query index is 0 is the first one, issued at the cycle's start time. -/
theorem streamCycle_first (env : ℕ → ℕ → QStep) (cyc numQ t : ℕ) (e : ℕ × ℕ × ℕ)
    (he : e ∈ (streamCycle env cyc (List.range numQ) t).1) (h0 : e.2.1 = 0) :
    e.2.2 = t := by
  cases numQ with
  | zero => simp [streamCycle] at he
  | succ m =>
    rw [List.range_succ_eq_map, streamCycle] at he
    simp only [List.mem_cons] at he
    rcases he with he | he
    · rw [he]
    · rcases streamCycle_mem env cyc _ _ e he with ⟨_, h2, _⟩
      simp only [List.mem_map] at h2
      rcases h2 with ⟨a, _, ha⟩
      rw [h0] at ha
      exact absurd ha (Nat.succ_ne_zero a)

/-- C1: the batch run accepts the one available tweet — it reaches
`all_tweets` and its hash enters the shared dedup set — yet `collect_tweets`
returns the empty list: the final dedup pass of lines 359-364 filters
`all_tweets` against the very `seen_hashes` set the per-hashtag loops
already populated, so no accepted item ever appears in the returned
sequence, contradicting the claim (and the spec) that every accepted item
appears there exactly once. -/
theorem C1_batch_run_drops_accepted_items :
    (collectAll envC1 ["a"] 5).1 = [tdC1] ∧ collect_tweets envC1 ["a"] 5 = [] := by
  decide

/-- C2 counterexample: a pagination run that performs 2 page fetches adds 0
outcomes to the rolling history, not 2 — the loop never goes through
`RequestSession`. -/
theorem C2_counterexample :
    (collect_tweets_for_hashtag_rl (Except.ok ()) pagesAlwaysNew 2 ∅
        (RateLimiter.init cfgA)).1.2.2 = 2 ∧
    (collect_tweets_for_hashtag_rl (Except.ok ()) pagesAlwaysNew 2 ∅
        (RateLimiter.init cfgA)).2.request_history.length = 0 ∧
    ¬ (collect_tweets_for_hashtag_rl (Except.ok ()) pagesAlwaysNew 2 ∅
        (RateLimiter.init cfgA)).2.request_history.length = 2 := by
  decide

/-- C2 (amended): page fetches in the per-query pagination loop are issued
directly through the web driver, never through `RequestSession`: no
`wait_if_needed` runs and no outcome is recorded during the loop, so a
pagination loop performing any number of page fetches leaves the whole
rate-limiter state (rolling history included) unchanged.  `make_request`
itself, had it been used, would append exactly one outcome per call. -/
theorem C2_loop_bypasses_request_session :
    (∀ nav pages max_tweets seen rl,
        (collect_tweets_for_hashtag_rl nav pages max_tweets seen rl).2 = rl) ∧
    (∀ (s : RequestSession) (fetch : Except Unit Unit) (latency : ℚ) (ua : String)
        (now j1 j2 : ℚ),
        (make_request s fetch latency ua now j1 j2).1.rate_limiter.request_history.length =
          min (s.rate_limiter.request_history.length + 1) HISTORY_CAPACITY) := by
  constructor
  · intro nav pages mt seen rl
    rfl
  · intro s fetch latency ua now j1 j2
    cases fetch with
    | ok r => simp [make_request, record_request_history, dequeAppend_length]
    | error e => simp [make_request, record_request_history, dequeAppend_length]

/-- C3 counterexample: two queries, deadline 50; the first query's batch
starts at time 0 and is followed by a 60-second pacing sleep, after which
the second query's batch still starts — at time 60, past the deadline.  The
deadline is not re-checked at the top of every query iteration. -/
theorem C3_counterexample :
    collect_tweets_streaming envC3 2 50 5 0 0 = [(0, 0, 0), (0, 1, 60)] ∧
    ¬ (60 : ℕ) < 50 := by
  decide

/-- C3 (amended): the deadline is re-checked only at the top of every full
cycle over the query list: a run already at or past the deadline starts no
batch at all, and every cycle's first batch (query index 0) starts strictly
before the deadline — while batches for later queries within a cycle may
start at or past it. -/
theorem C3_deadline_checked_per_cycle :
    (∀ env numQ deadline fuel t cyc, deadline ≤ t →
        collect_tweets_streaming env numQ deadline fuel t cyc = []) ∧
    (∀ env numQ deadline fuel t cyc (e : ℕ × ℕ × ℕ),
        e ∈ collect_tweets_streaming env numQ deadline fuel t cyc → e.2.1 = 0 →
        e.2.2 < deadline) := by
  constructor
  · intro env numQ deadline fuel t cyc h
    cases fuel with
    | zero => rfl
    | succ fuel => rw [collect_tweets_streaming, if_neg (by omega)]
  · intro env numQ deadline fuel
    induction fuel with
    | zero =>
      intro t cyc e he h0
      simp [collect_tweets_streaming] at he
    | succ fuel ih =>
      intro t cyc e he h0
      rw [collect_tweets_streaming] at he
      by_cases ht : t < deadline
      · rw [if_pos ht] at he
        simp only [List.mem_append] at he
        rcases he with he | he
        · rw [streamCycle_first env cyc numQ t e he h0]
          exact ht
        · exact ih _ _ e he h0
      · rw [if_neg ht] at he
        simp at he

/-- C4 counterexample: with `maxItems = 10` and a source yielding one new
unique item on every page-fetch iteration, the loop returns 10 items (the
target is reached), not 5; the iteration ceiling is the hard-coded
`max_scrolls = 10` — no configurable `maxIterations` exists, so the claimed
`maxIterations = 5` scenario cannot arise. -/
theorem C4_counterexample :
    (collect_tweets_for_hashtag (Except.ok ()) pagesAlwaysNew 10 ∅).1.length = 10 ∧
    ¬ (collect_tweets_for_hashtag (Except.ok ()) pagesAlwaysNew 10 ∅).1.length = 5 ∧
    max_scrolls = 10 := by
  decide

/-- C4 (amended): the per-query pagination loop always terminates within the
hard-coded ceiling of `max_scrolls = 10` page-fetch iterations, even if the
fetcher always returns content; with `maxItems = 10`, a source yielding one
new unique item on each of the first 5 iterations and thereafter only
already-seen fingerprints gives a result of length 5 when the scroll ceiling
is exhausted. -/
theorem C4_terminates_within_scroll_ceiling :
    (∀ nav pages max_tweets (seen : Finset String),
        (collect_tweets_for_hashtag nav pages max_tweets seen).2.2 ≤ max_scrolls) ∧
    (collect_tweets_for_hashtag (Except.ok ()) pagesRepeatAfter5 10 ∅).1.length = 5 ∧
    (collect_tweets_for_hashtag (Except.ok ()) pagesRepeatAfter5 10 ∅).2.2 = max_scrolls := by
  refine ⟨?_, by decide, by decide⟩
  intro nav pages mt seen
  cases nav with
  | error e => exact (show 0 ≤ max_scrolls by omega)
  | ok u =>
    show (collectLoop pages mt [] seen 0 0).2.2 ≤ max_scrolls
    unfold collectLoop
    have h := collectLoopF_iters pages mt (max_scrolls - 0) [] seen 0 0
    omega

/-- C5: `record_request` updates the backoff state exactly as specified — on
success `consecutive_failures := 0` and the multiplier decays by 0.9 with
floor 1.0; on failure `consecutive_failures` increments and the multiplier
grows by 1.5 with cap 10.0 — and consequently, after `n` consecutive
failures from the initial (or reset) state the multiplier equals
`clamp(1.5^n, 1.0, 10.0)`, and one success resets the failure counter. -/
theorem C5_backoff_state_updates :
    (∀ (rl : RateLimiter) (rt : ℚ) (ua : String) (now : ℚ),
        (record_request rl true rt ua now).consecutive_failures = 0 ∧
        (record_request rl true rt ua now).backoff_multiplier =
          max 1 (rl.backoff_multiplier * (9 / 10)) ∧
        (record_request rl false rt ua now).consecutive_failures =
          rl.consecutive_failures + 1 ∧
        (record_request rl false rt ua now).backoff_multiplier =
          min 10 (rl.backoff_multiplier * (3 / 2))) ∧
    (∀ (c : RateLimitingConfig) (n : ℕ),
        (failN (RateLimiter.init c) n).backoff_multiplier =
          max 1 (min 10 ((3 / 2 : ℚ) ^ n)) ∧
        (failN (RateLimiter.init c) n).consecutive_failures = n ∧
        ∀ (rt : ℚ) (ua : String) (now : ℚ),
          (record_request (failN (RateLimiter.init c) n) true rt ua now).consecutive_failures
            = 0) ∧
    (∀ (rl : RateLimiter) (n : ℕ),
        (failN rl.reset n).backoff_multiplier = max 1 (min 10 ((3 / 2 : ℚ) ^ n)) ∧
        (failN rl.reset n).consecutive_failures = n) := by
  refine ⟨?_, ?_, ?_⟩
  · intro rl rt ua now
    exact ⟨rfl, rfl, rfl, rfl⟩
  · intro c n
    have h := failN_spec (RateLimiter.init c) rfl rfl n
    exact ⟨h.1, h.2, fun rt ua now => rfl⟩
  · intro rl n
    exact failN_spec rl.reset rfl rfl n

/-- C6: `calculate_delay` caps its result at `max_delay` in every state, and
in Scenario A (base 2.0s, max 60s, 3 consecutive failures, backoff enabled)
the pre-jitter delay is 16.0s and the final delay lies in [8.0s, 24.0s] for
every jitter draw in [0.5, 1.5]. -/
theorem C6_delay_formula (j : ℚ) (h1 : 1 / 2 ≤ j) (h2 : j ≤ 3 / 2) :
    (∀ (rl : RateLimiter) (jitter : ℚ),
        calculate_delay rl jitter ≤ rl.config.max_delay) ∧
    calculate_delay_pre scenarioA = 16 ∧
    8 ≤ calculate_delay scenarioA j ∧ calculate_delay scenarioA j ≤ 24 := by
  have hpre : calculate_delay_pre scenarioA = 16 := by
    norm_num [calculate_delay_pre, scenarioA, cfgA, exponential_backoff_delay]
  have hmd : scenarioA.config.max_delay = 60 := rfl
  refine ⟨fun rl jitter => min_le_right _ _, hpre, ?_, ?_⟩
  · show 8 ≤ min (calculate_delay_pre scenarioA * j) scenarioA.config.max_delay
    rw [hpre, hmd]
    exact le_min (by nlinarith) (by norm_num)
  · show min (calculate_delay_pre scenarioA * j) scenarioA.config.max_delay ≤ 24
    rw [hpre, hmd]
    exact le_trans (min_le_left _ _) (by nlinarith)

/-- C6 witness: the theorem applied at the concrete jitter draw 1. -/
theorem C6_delay_formula_witness :
    calculate_delay_pre scenarioA = 16 ∧
    8 ≤ calculate_delay scenarioA 1 ∧ calculate_delay scenarioA 1 ≤ 24 := by
  have h := C6_delay_formula 1 (by norm_num) (by norm_num)
  exact ⟨h.2.1, h.2.2.1, h.2.2.2⟩

/-- C7: a fetch failure is caught at the pagination loop's boundary and ends
only that loop, which returns the items collected so far; and in a batch run
a query whose collection fails never aborts its sibling queries — the run
completes and the sibling's items are exactly those of a clean run. -/
theorem C7_fetch_failure_isolated :
    (∀ pages max_tweets (tweets : List TweetData) (seen : Finset String) (sc iters : ℕ),
        tweets.length < max_tweets → sc < max_scrolls → pages sc = Except.error () →
        collectLoop pages max_tweets tweets seen sc iters = (tweets, seen, iters + 1)) ∧
    (∀ (env : String → QueryEnv) (max_tweets : ℕ) (q1 q2 : String),
        (env q1).nav = Except.error () →
        (collectAll env [q1, q2] max_tweets).1 =
          (collect_tweets_for_hashtag (env q2).nav (env q2).pages max_tweets ∅).1) := by
  constructor
  · intro pages mt tweets seen sc iters h1 h2 hp
    unfold collectLoop
    have hf : max_scrolls - sc = max_scrolls - sc - 1 + 1 := by omega
    rw [hf, collectLoopF, if_pos ⟨h1, h2⟩, hp]
  · intro env mt q1 q2 hnav
    unfold collectAll
    simp only [List.foldl_cons, List.foldl_nil]
    rw [hnav]
    simp [collect_tweets_for_hashtag]

/-- C7 witness: the theorem applied to a loop whose first fetch fails, and
to a two-query batch whose first query fails navigation. -/
theorem C7_fetch_failure_isolated_witness :
    collectLoop (fun _ => Except.error ()) 3 [] ∅ 0 0 = ([], ∅, 1) ∧
    (collectAll envC7w ["a", "b"] 3).1 =
      (collect_tweets_for_hashtag (envC7w "b").nav (envC7w "b").pages 3 ∅).1 := by
  constructor
  · exact C7_fetch_failure_isolated.1 (fun _ => Except.error ()) 3 [] ∅ 0 0
      (by decide) (by decide) rfl
  · exact C7_fetch_failure_isolated.2 envC7w 3 "a" "b" rfl

/-- C8 counterexample: with an empty rolling history, the returned record
lacks the `consecutive_failures` and `backoff_multiplier` fields — only four
of the six claimed fields are present. -/
theorem C8_counterexample :
    "consecutive_failures" ∉ (get_request_stats (RateLimiter.init cfgA) 0).map Prod.fst ∧
    "backoff_multiplier" ∉ (get_request_stats (RateLimiter.init cfgA) 0).map Prod.fst := by
  decide

/-- C8 (amended): `stats()` is a read-only pure function of the limiter
state; when the rolling history is nonempty it returns all six fields, but
when the history is empty it returns only the four fields
`total_requests`, `success_rate`, `avg_response_time` and
`requests_per_minute`. -/
theorem C8_stats_fields (rl : RateLimiter) (now : ℚ) :
    (rl.request_history = [] →
        (get_request_stats rl now).map Prod.fst =
          ["total_requests", "success_rate", "avg_response_time", "requests_per_minute"]) ∧
    (rl.request_history ≠ [] →
        (get_request_stats rl now).map Prod.fst =
          ["total_requests", "success_rate", "avg_response_time", "requests_per_minute",
           "consecutive_failures", "backoff_multiplier"]) := by
  constructor
  · intro h
    rw [get_request_stats, if_pos (by simp [h])]
    rfl
  · intro h
    rw [get_request_stats, if_neg (by simp [List.isEmpty_iff, h])]
    rfl

/-- C8 witness: the theorem applied to an empty-history limiter and to one
that recorded a single outcome. -/
theorem C8_stats_fields_witness :
    (get_request_stats (RateLimiter.init cfgA) 0).map Prod.fst =
      ["total_requests", "success_rate", "avg_response_time", "requests_per_minute"] ∧
    (get_request_stats rlOne 0).map Prod.fst =
      ["total_requests", "success_rate", "avg_response_time", "requests_per_minute",
       "consecutive_failures", "backoff_multiplier"] :=
  ⟨(C8_stats_fields (RateLimiter.init cfgA) 0).1 rfl,
   (C8_stats_fields rlOne 0).2 (by decide)⟩

/-- C9: the rolling history is FIFO-bounded at capacity 1000 under every
sequence of recorded outcomes, and after inserting 1001 outcomes the history
is exactly the last 1000 of them (the oldest evicted) with
`stats().total_requests = 1000`. -/
theorem C9_rolling_history_fifo :
    (∀ (c : RateLimitingConfig) (l : List RequestInfo),
        (histFold c l).request_history.length ≤ HISTORY_CAPACITY) ∧
    (∀ (c : RateLimitingConfig) (l : List RequestInfo) (now : ℚ), l.length = 1001 →
        (histFold c l).request_history = l.drop 1 ∧
        List.lookup "total_requests" (get_request_stats (histFold c l) now) =
          some (1000 : ℚ)) := by
  constructor
  · intro c l
    rw [histFold_history, List.length_drop]
    omega
  · intro c l now h
    have hh : (histFold c l).request_history = l.drop 1 := by
      rw [histFold_history, h]
      norm_num [HISTORY_CAPACITY]
    have hlen : (histFold c l).request_history.length = 1000 := by
      rw [hh, List.length_drop, h]
    have hne : (histFold c l).request_history ≠ [] := by
      intro hnil
      rw [hnil] at hlen
      simp at hlen
    have hemp : (histFold c l).request_history.isEmpty = false := by
      cases hcase : (histFold c l).request_history with
      | nil => exact absurd hcase hne
      | cons a as => rfl
    refine ⟨hh, ?_⟩
    rw [get_request_stats, if_neg (by rw [hemp]; exact Bool.false_ne_true)]
    simp [List.lookup, hlen]

/-- C9 witness: 1001 identical outcomes inserted into a fresh limiter. -/
theorem C9_rolling_history_fifo_witness :
    (histFold cfgA listC9).request_history = listC9.drop 1 ∧
    List.lookup "total_requests" (get_request_stats (histFold cfgA listC9) 0) =
      some (1000 : ℚ) :=
  C9_rolling_history_fifo.2 cfgA listC9 0
    (show listC9.length = 1001 from List.length_replicate 1001 outcomeC9)

/-- C10: `should_wait` and `wait_if_needed` each draw their own jitter: with
one prior request at time 0 and `now = 1`, the draw 3/2 makes `should_wait`
true (threshold 3s), while the sleep uses the fresh draw 1/2 and lasts only
1s — strictly shorter than the 2s still needed to reach the threshold that
triggered the wait. -/
theorem C10_independent_jitter_draws :
    should_wait rlB 1 (3 / 2) = true ∧
    calculate_delay rlB (3 / 2) = 3 ∧
    wait_if_needed rlB 1 (3 / 2) (1 / 2) = calculate_delay rlB (1 / 2) ∧
    wait_if_needed rlB 1 (3 / 2) (1 / 2) = 1 ∧
    wait_if_needed rlB 1 (3 / 2) (1 / 2) < calculate_delay rlB (3 / 2) - (1 - 0) := by
  norm_num [should_wait, wait_if_needed, calculate_delay, calculate_delay_pre, rlB, cfgB]

/-- C3 witness: the amended theorem applied to a run already past its
deadline (no batch starts) and to the first batch of a concrete run. -/
theorem C3_deadline_checked_per_cycle_witness :
    collect_tweets_streaming envC3 2 50 5 60 0 = [] ∧ (0 : ℕ) < 50 := by
  constructor
  · exact C3_deadline_checked_per_cycle.1 envC3 2 50 5 60 0 (by decide)
  · exact C3_deadline_checked_per_cycle.2 envC3 2 50 5 0 0 (0, 0, 0) (by decide) rfl
